import Mathlib

/-!
# Verification of the glyph-forge client (`glyph_forge/core/client/forge_client.py`)

A shallow embedding of the ForgeClient operations and of the workspace JSON
store, together with theorems settling the specification claims.

Modelling conventions:
* JSON values (`json.dumps`/`response.json()` payloads) are the inductive
  `JValue` (null, booleans, integers, strings, arrays, objects); Python dicts
  are association lists `JDict`.
* The HTTP transport (`httpx`) is abstracted as a function from the request
  URL to an `ExchangeOutcome`: either a transport failure (timeout, network
  error, other httpx error) or a response carrying a status code, a body text
  and the result of `response.json()`.
* Exceptions become `Except` results.  The exception datatype `ForgeError`
  carries exactly the fields passed at each `raise` site in
  `forge_client.py` (message/endpoint, plus status code and body for the
  HTTP kind, plus the original cause for the I/O kind), matching the error
  taxonomy of the spec.
* Side effects of an operation (HTTP requests issued, `ws.save_json` calls
  attempted) are recorded in an `OpTrace`, explicit state passing for the
  stateful Python code; `clientAfter` is the client state after the call.
-/

/-- A JSON value, the payloads handled by the client. -/
inductive JValue where
  | null : JValue
  | bool : Bool → JValue
  | int : Int → JValue
  | str : String → JValue
  | arr : List JValue → JValue
  | obj : List (String × JValue) → JValue
deriving Repr

/-- A Python dict with string keys, as produced by `response.json()`
(declared return type `Dict[str, Any]` of `_make_request`). -/
abbrev JDict := List (String × JValue)

namespace JValue

/-- Python `d.get(k)` on a dict: the value at the first occurrence of `k`. -/
def dget (d : JDict) (k : String) : Option JValue :=
  match d with
  | [] => none
  | entry :: rest => if entry.1 = k then some entry.2 else dget rest k

/-- Python truthiness of a JSON value: `None`, `False`, `0`, `""`, `[]` and
`{}` are falsy, everything else is truthy. -/
def truthy : JValue → Bool
  | .null => false
  | .bool b => b
  | .int n => n != 0
  | .str s => s != ""
  | .arr xs => !xs.isEmpty
  | .obj fs => !fs.isEmpty

/-- Truthiness of `d.get(k)`: `None` (absent key) is falsy. -/
def optTruthy : Option JValue → Bool
  | none => false
  | some v => truthy v

end JValue

/-! ## `json.dumps(·, sort_keys=True)` -/

/-- Hex digit characters. -/
def hexChar (n : Nat) : Char :=
  "0123456789abcdef".data.getD n '0'

/-- Four lowercase hex digits, as in Python's `\uXXXX` escapes. -/
def hex4 (n : Nat) : String :=
  String.mk [hexChar (n / 4096 % 16), hexChar (n / 256 % 16),
             hexChar (n / 16 % 16), hexChar (n % 16)]

/-- JSON escaping of one character with `ensure_ascii=True` (the
`json.dumps` default): printable ASCII other than `"` and `\` is kept,
the short escapes are used for the usual control characters, everything
else becomes `\uXXXX` (a surrogate pair beyond the BMP). -/
def jsonEscapeChar (c : Char) : String :=
  if c = '"' then "\\\""
  else if c = '\\' then "\\\\"
  else if c = '\n' then "\\n"
  else if c = '\r' then "\\r"
  else if c = '\t' then "\\t"
  else if c.toNat = 8 then "\\b"
  else if c.toNat = 12 then "\\f"
  else if 32 ≤ c.toNat ∧ c.toNat ≤ 126 then String.mk [c]
  else if c.toNat < 65536 then "\\u" ++ hex4 c.toNat
  else
    let n := c.toNat - 65536
    "\\u" ++ hex4 (55296 + n / 1024) ++ "\\u" ++ hex4 (56320 + n % 1024)

/-- A JSON string literal as `json.dumps` renders it. -/
def jsonQuote (s : String) : String :=
  "\"" ++ String.join (s.data.map jsonEscapeChar) ++ "\""

/-- Join with `", "`, the default `json.dumps` item separator. -/
def joinComma : List String → String
  | [] => ""
  | [x] => x
  | x :: rest => x ++ ", " ++ joinComma rest

/-- Key order used by `sort_keys=True`: code-point order on the keys. -/
def keyLE (p q : String × JValue) : Prop := p.1 ≤ q.1

instance : DecidableRel keyLE := fun p q => inferInstanceAs (Decidable (p.1 ≤ q.1))

instance : IsTotal (String × JValue) keyLE := ⟨fun p q => le_total p.1 q.1⟩

instance : IsTrans (String × JValue) keyLE := ⟨fun _ _ _ h h' => le_trans h h'⟩

/-- The fields of an object in the order `sort_keys=True` emits them. -/
def sortFields (fs : JDict) : JDict := List.insertionSort keyLE fs

/-- Serialization `json.dumps(v, sort_keys=True)` with default separators: object keys are
sorted recursively, items joined by `", "`, keys and values by `": "`. -/
def dumps : JValue → String
  | .null => "null"
  | .bool true => "true"
  | .bool false => "false"
  | .int n => toString n
  | .str s => jsonQuote s
  | .arr xs => "[" ++ joinComma (xs.attach.map fun x => dumps x.1) ++ "]"
  | .obj fs =>
      "\x7b" ++
        joinComma ((sortFields fs).attach.map fun f =>
          jsonQuote f.1.1 ++ ": " ++ dumps f.1.2) ++
      "\x7d"
termination_by v => sizeOf v
decreasing_by
  · have := List.sizeOf_lt_sizeOf_of_mem x.2
    simp only [JValue.arr.sizeOf_spec]
    omega
  · have hmem : f.1 ∈ sortFields fs := f.2
    have hmem' : f.1 ∈ fs := (List.mem_insertionSort keyLE).mp hmem
    have h1 := List.sizeOf_lt_sizeOf_of_mem hmem'
    have h2 : sizeOf f.1.2 < sizeOf f.1 := by
      obtain ⟨a, b⟩ := f.1
      simp only [Prod.mk.sizeOf_spec]
      omega
    simp only [JValue.obj.sizeOf_spec]
    omega

/-! ## `hashlib.sha256` and `str.encode()` -/

/-- UTF-8 encoding of one character (`str.encode()`), as a list of bytes. -/
def utf8Char (c : Char) : List Nat :=
  let n := c.toNat
  if n < 128 then [n]
  else if n < 2048 then [192 + n / 64, 128 + n % 64]
  else if n < 65536 then [224 + n / 4096, 128 + n / 64 % 64, 128 + n % 64]
  else [240 + n / 262144, 128 + n / 4096 % 64, 128 + n / 64 % 64, 128 + n % 64]

/-- UTF-8 encoding of a string (`str.encode()`), as a list of bytes. -/
def utf8Encode (s : String) : List Nat :=
  s.data.flatMap utf8Char

/-- Truncation to 32 bits. -/
def m32 (x : Nat) : Nat := x % 4294967296

/-- Right rotation on 32 bits. -/
def rotr32 (x n : Nat) : Nat := m32 ((x >>> n) ||| (x <<< (32 - n)))

/-- Primality test by trial division. -/
def isPrimeNat (n : Nat) : Bool :=
  2 ≤ n && (((List.range n).drop 2).all (fun d => n % d != 0))

/-- The first `k` prime numbers. -/
def firstPrimes (k : Nat) : List Nat :=
  ((List.range 400).filter isPrimeNat).take k

/-- Integer cube root by binary descent over 40 bits. -/
def icbrt (n : Nat) : Nat :=
  (List.range 40).foldl
    (fun r i => let cand := r + 2 ^ (39 - i); if cand * cand * cand ≤ n then cand else r) 0

/-- SHA-256 round constants: for each of the first 64 primes, the first 32
bits of the fractional part of its cube root. -/
def sha256K : List Nat :=
  (firstPrimes 64).map (fun p => icbrt (p * 2 ^ 96) % 4294967296)

/-- SHA-256 initial hash state: for each of the first 8 primes, the first
32 bits of the fractional part of its square root. -/
def sha256H0 : List Nat :=
  (firstPrimes 8).map (fun p => Nat.sqrt (p * 2 ^ 64) % 4294967296)

/-- SHA-256 message padding: a `0x80` byte, zeros to 56 mod 64, then the
bit length as 8 big-endian bytes. -/
def sha256Pad (msg : List Nat) : List Nat :=
  let zeros := (64 + 55 - (msg.length % 64)) % 64
  let bitLen := msg.length * 8
  msg ++ [128] ++ List.replicate zeros 0 ++
    (List.range 8).map (fun i => bitLen >>> ((7 - i) * 8) % 256)

/-- Split a byte list into 64-byte chunks. -/
def chunks64 : List Nat → List (List Nat)
  | [] => []
  | b :: rest => (b :: rest).take 64 :: chunks64 ((b :: rest).drop 64)
termination_by l => l.length
decreasing_by
  simp only [List.length_drop, List.length_cons]
  omega

/-- The 64-entry message schedule of one SHA-256 block. -/
def sha256Schedule (block : List Nat) : Array Nat :=
  let w0 : Array Nat := ((List.range 16).map (fun i =>
    block.getD (4 * i) 0 * 16777216 + block.getD (4 * i + 1) 0 * 65536 +
    block.getD (4 * i + 2) 0 * 256 + block.getD (4 * i + 3) 0)).toArray
  (List.range 48).foldl (fun w i =>
    let t := i + 16
    let s0 := (rotr32 (w.getD (t - 15) 0) 7) ^^^ (rotr32 (w.getD (t - 15) 0) 18) ^^^
              ((w.getD (t - 15) 0) >>> 3)
    let s1 := (rotr32 (w.getD (t - 2) 0) 17) ^^^ (rotr32 (w.getD (t - 2) 0) 19) ^^^
              ((w.getD (t - 2) 0) >>> 10)
    w.push (m32 (w.getD (t - 16) 0 + s0 + w.getD (t - 7) 0 + s1))) w0

/-- SHA-256 compression of one block into the running state. -/
def sha256Compress (state : List Nat) (block : List Nat) : List Nat :=
  let w := sha256Schedule block
  let final := (List.range 64).foldl (fun (v : List Nat) i =>
    let a := v.getD 0 0
    let b := v.getD 1 0
    let c := v.getD 2 0
    let d := v.getD 3 0
    let e := v.getD 4 0
    let f := v.getD 5 0
    let g := v.getD 6 0
    let h := v.getD 7 0
    let bigS1 := (rotr32 e 6) ^^^ (rotr32 e 11) ^^^ (rotr32 e 25)
    let ch := (e &&& f) ^^^ ((e ^^^ 4294967295) &&& g)
    let t1 := m32 (h + bigS1 + ch + sha256K.getD i 0 + w.getD i 0)
    let bigS0 := (rotr32 a 2) ^^^ (rotr32 a 13) ^^^ (rotr32 a 22)
    let mj := (a &&& b) ^^^ (a &&& c) ^^^ (b &&& c)
    let t2 := m32 (bigS0 + mj)
    [m32 (t1 + t2), a, b, c, m32 (d + t1), e, f, g]) state
  (List.range 8).map (fun i => m32 (state.getD i 0 + final.getD i 0))

/-- Python `hashlib.sha256(·).digest()`: the 32-byte SHA-256 digest of a byte list. -/
def sha256 (msg : List Nat) : List Nat :=
  let state := (chunks64 (sha256Pad msg)).foldl sha256Compress sha256H0
  state.flatMap (fun x => [x / 16777216 % 256, x / 65536 % 256, x / 256 % 256, x % 256])

/-- Python `.hexdigest()`: lowercase hex rendering of a digest. -/
def hexDigest (bytes : List Nat) : String :=
  String.join (bytes.map (fun b => String.mk [hexChar (b / 16 % 16), hexChar (b % 16)]))

/-- The schema hash computed by `run_schema`:
`hashlib.sha256(json.dumps(schema, sort_keys=True).encode()).hexdigest()[:16]`. -/
def schemaHash (schema : JDict) : String :=
  (hexDigest (sha256 (utf8Encode (dumps (.obj schema))))).take 16

/-! ## Python `str()` of a JSON-decoded object (for f-string messages) -/

/-- Escaping of one character inside a Python `repr` string literal with the
given quote character. -/
def pyReprChar (quote : Char) (c : Char) : String :=
  if c = '\\' then "\\\\"
  else if c = quote then "\\" ++ String.mk [quote]
  else if c = '\n' then "\\n"
  else if c = '\r' then "\\r"
  else if c = '\t' then "\\t"
  else if c.toNat < 32 then "\\x" ++ String.mk [hexChar (c.toNat / 16), hexChar (c.toNat % 16)]
  else String.mk [c]

/-- Python `repr` of a string: single quotes, unless the string contains a
single quote and no double quote. -/
def pyReprStr (s : String) : String :=
  let quote := if s.data.contains '\'' ∧ ¬ s.data.contains '"' then '"' else '\''
  String.mk [quote] ++ String.join (s.data.map (pyReprChar quote)) ++ String.mk [quote]

/-- Python `repr` of a JSON-decoded object (`None`/`True`/`False`, ints,
quoted strings, lists, dicts). -/
def pyRepr : JValue → String
  | .null => "None"
  | .bool true => "True"
  | .bool false => "False"
  | .int n => toString n
  | .str s => pyReprStr s
  | .arr xs => "[" ++ joinComma (xs.attach.map fun x => pyRepr x.1) ++ "]"
  | .obj fs =>
      "\x7b" ++
        joinComma (fs.attach.map fun f => pyReprStr f.1.1 ++ ": " ++ pyRepr f.1.2) ++
      "\x7d"
termination_by v => sizeOf v
decreasing_by
  · have := List.sizeOf_lt_sizeOf_of_mem x.2
    simp only [JValue.arr.sizeOf_spec]
    omega
  · have h1 := List.sizeOf_lt_sizeOf_of_mem f.2
    have h2 : sizeOf f.1.2 < sizeOf f.1 := by
      obtain ⟨a, b⟩ := f.1
      simp only [Prod.mk.sizeOf_spec]
      omega
    simp only [JValue.obj.sizeOf_spec]
    omega

/-- Python `str()` of `d.get(k)` as an f-string renders it: `None` for an
absent key or JSON null, the bare text of a string, `repr` otherwise. -/
def pyStrOpt : Option JValue → String
  | none => "None"
  | some (.str s) => s
  | some v => pyRepr v

/-! ## ForgeClient construction (`ForgeClient.__init__`) -/

/-- Python `x or default` on an `Optional[str]`: the default replaces `None`
and the empty string. -/
def pyOrStr (x : Option String) (default : String) : String :=
  match x with
  | none => default
  | some s => if s = "" then default else s

/-- Python `s.rstrip("/")`: drop all trailing slashes. -/
def rstripSlashes (s : String) : String :=
  String.mk ((s.data.reverse.dropWhile (fun c => c = '/')).reverse)

/-- Constant `ForgeClient.DEFAULT_BASE_URL`. -/
def DEFAULT_BASE_URL : String := "https://api.glyphapi.ai"

/-- The state a `ForgeClient` stores: `self.base_url` and `self.timeout`
(the underlying `httpx.Client` holds no further client state we model).
`timeout` is an exactly-representable literal, carried as a rational. -/
structure ForgeClientState where
  base_url : String
  timeout : ℚ
deriving DecidableEq, Repr

/-- Constructor `ForgeClient.__init__`: resolve the base URL from the argument, the
`GLYPH_API_BASE` environment variable, or the default, in that order
(Python `or`, so empty strings fall through), then strip trailing slashes.
`env` is the process environment (`os.getenv`). -/
def mkClient (base_url : Option String) (env : String → Option String)
    (timeout : ℚ) : ForgeClientState :=
  let resolved_url := pyOrStr base_url (pyOrStr (env "GLYPH_API_BASE") DEFAULT_BASE_URL)
  { base_url := rstripSlashes resolved_url, timeout := timeout }

/-! ## Errors and the HTTP exchange -/

/-- The ways the `httpx` exchange itself can fail, matching the `except`
clauses of `_make_request`: `httpx.TimeoutException`, `httpx.NetworkError`,
and any other `httpx.HTTPError`. -/
inductive HttpxFailure where
  | timeout : HttpxFailure
  | network : HttpxFailure
  | otherHttp : HttpxFailure
deriving DecidableEq, Repr

/-- An HTTP response: status code, body text, and the outcome of
`response.json()` (`none` models a `json.JSONDecodeError`; a successful
decode yields a dict, the declared return type of `_make_request`). -/
structure HttpResponse where
  status_code : Int
  text : String
  jsonResult : Option JDict

/-- Outcome of one HTTP exchange: a transport failure or a response. -/
inductive ExchangeOutcome where
  | failure : HttpxFailure → ExchangeOutcome
  | response : HttpResponse → ExchangeOutcome

/-- Modelled from the spec and the raise sites of `forge_client.py`: the
exception classes of the missing `glyph_forge/core/client/exceptions.py`.
Each constructor carries exactly the arguments passed where it is raised:
a message and the endpoint for `ForgeClientError`; additionally the
original cause for `ForgeClientIOError`; additionally the response status
code and body for `ForgeClientHTTPError` ("I/O and HTTP errors wrap the
underlying cause; generic errors carry a human-readable message and the
endpoint"; "non-success HTTP status failures (carrying status code and
body)"). -/
inductive ForgeError where
  | clientError (message : String) (endpoint : String) : ForgeError
  | ioError (message : String) (endpoint : String) (original_error : HttpxFailure) : ForgeError
  | httpError (message : String) (status_code : Int) (response_body : String)
      (endpoint : String) : ForgeError
deriving DecidableEq, Repr

/-- Method `ForgeClient._make_request`: build the URL, perform the exchange, raise
`ForgeClientHTTPError` on a non-2xx status, `ForgeClientError` on a JSON
decode failure, `ForgeClientIOError` on transport failures.  Returns the
result together with the URL requested.  `exchange` abstracts
`self._client.request` (the response may depend on the URL; payloads are
marshaled but not interpreted by the client). -/
def makeRequest (base_url endpoint : String) (exchange : String → ExchangeOutcome) :
    Except ForgeError JDict × String :=
  let url := base_url ++ endpoint
  let res : Except ForgeError JDict :=
    match exchange url with
    | .failure .timeout =>
        .error (.ioError ("Request timeout for " ++ endpoint) endpoint .timeout)
    | .failure .network =>
        .error (.ioError ("Network error for " ++ endpoint) endpoint .network)
    | .failure .otherHttp =>
        .error (.ioError ("HTTP client error for " ++ endpoint) endpoint .otherHttp)
    | .response r =>
        if ¬ (200 ≤ r.status_code ∧ r.status_code < 300) then
          .error (.httpError ("HTTP " ++ toString r.status_code ++ " from " ++ endpoint)
            r.status_code r.text endpoint)
        else
          match r.jsonResult with
          | some j => .ok j
          | none => .error (.clientError ("Invalid JSON response from " ++ endpoint) endpoint)
  (res, url)

/-! ## The client operations -/

/-- Interface `ws.save_json(dir, key, value)` as the operations see it: it returns a
path or raises (`.error` carries the exception's message text). -/
abbrev SaveFn := String → String → JValue → Except String String

/-- The observable behaviour of one client operation: its Python return
value or raised exception, the URLs requested, the `ws.save_json` calls
attempted (dir, key, value), and the client state after the call. -/
structure OpTrace (α : Type) where
  result : Except ForgeError α
  requests : List String
  saves : List (String × String × JValue)
  clientAfter : ForgeClientState

/-- Python truthiness of an `Optional[str]` (`if save_as:`). -/
def pyTruthyOptStr : Option String → Bool
  | none => false
  | some s => s != ""

/-- Check `response.get("status") != "success"` compares a JSON-decoded object
with a Python `str`: only the equal string makes it equal. -/
def isSuccessStatus : Option JValue → Bool
  | some (.str s) => s == "success"
  | _ => false

/-- The `manifest` dict literal of `run_schema`, keys in source order.
`now` is `datetime.now().isoformat()`, `status_val` the response's status
object (checked equal to `"success"` before this point). -/
def runManifest (now : String) (schema : JDict) (docx_url : JValue)
    (dest_name : String) (plaintext : String) (status_val : JValue) : JDict :=
  [("timestamp", .str now),
   ("schema_hash", .str (schemaHash schema)),
   ("docx_url", docx_url),
   ("dest_name", .str dest_name),
   ("plaintext_length", .int plaintext.length),
   ("status", status_val)]

/-- Method `ForgeClient.build_schema_from_docx`: POST `/schema/build`, require a
truthy `"schema"` in the response, optionally persist it under
`output_configs/<save_as>` (a save failure becomes a `ForgeClientError`).
`docx_abs` is the resolved `docx_path` (sent in the payload only). -/
def build_schema_from_docx (c : ForgeClientState) (exchange : String → ExchangeOutcome)
    (save : SaveFn) (docx_abs : String) (save_as : Option String) : OpTrace JValue :=
  let _payload : JDict := [("docx_path", .str docx_abs)]
  let mr := makeRequest c.base_url "/schema/build" exchange
  match mr.1 with
  | .error e => ⟨.error e, [mr.2], [], c⟩
  | .ok response =>
    match JValue.dget response "schema" with
    | some sv =>
      if sv.truthy then
        if pyTruthyOptStr save_as then
          let name := save_as.getD ""
          match save "output_configs" name sv with
          | .ok _path => ⟨.ok sv, [mr.2], [("output_configs", name, sv)], c⟩
          | .error msg =>
              ⟨.error (.clientError ("Failed to save schema to workspace: " ++ msg)
                "/schema/build"), [mr.2], [("output_configs", name, sv)], c⟩
        else ⟨.ok sv, [mr.2], [], c⟩
      else ⟨.error (.clientError "Missing 'schema' in API response" "/schema/build"),
            [mr.2], [], c⟩
    | none => ⟨.error (.clientError "Missing 'schema' in API response" "/schema/build"),
            [mr.2], [], c⟩

/-- Method `ForgeClient.run_schema`: POST `/schema/run`, require status
`"success"` and a truthy `"docx_url"`, then attempt to save the run
manifest (the save outcome is logged, never propagated) and return the
docx url. -/
def run_schema (c : ForgeClientState) (exchange : String → ExchangeOutcome)
    (save : SaveFn) (schema : JDict) (plaintext : String)
    (dest_name : String) (now : String) : OpTrace JValue :=
  let mr := makeRequest c.base_url "/schema/run" exchange
  match mr.1 with
  | .error e => ⟨.error e, [mr.2], [], c⟩
  | .ok response =>
    let status := JValue.dget response "status"
    if isSuccessStatus status then
      match JValue.dget response "docx_url" with
      | some du =>
        if du.truthy then
          let manifest := runManifest now schema du dest_name plaintext (status.getD .null)
          let _saveOutcome := save "output_configs" "run_manifest" (.obj manifest)
          ⟨.ok du, [mr.2], [("output_configs", "run_manifest", .obj manifest)], c⟩
        else ⟨.error (.clientError "Missing 'docx_url' in API response" "/schema/run"),
              [mr.2], [], c⟩
      | none => ⟨.error (.clientError "Missing 'docx_url' in API response" "/schema/run"),
              [mr.2], [], c⟩
    else ⟨.error (.clientError ("Schema run failed with status=" ++ pyStrOpt status)
            "/schema/run"), [mr.2], [], c⟩

/-- Method `ForgeClient.intake_plaintext_text`: POST `/plaintext/intake`, return
the response dict, optionally persisting it (a save failure becomes a
`ForgeClientError`).  `text` and the options enter the payload only. -/
def intake_plaintext_text (c : ForgeClientState) (exchange : String → ExchangeOutcome)
    (save : SaveFn) (text : String) (save_as : Option String) : OpTrace JDict :=
  let _payload : JDict := [("text", .str text)]
  let mr := makeRequest c.base_url "/plaintext/intake" exchange
  match mr.1 with
  | .error e => ⟨.error e, [mr.2], [], c⟩
  | .ok response =>
    if pyTruthyOptStr save_as then
      let name := save_as.getD ""
      match save "output_configs" name (.obj response) with
      | .ok _path => ⟨.ok response, [mr.2], [("output_configs", name, .obj response)], c⟩
      | .error msg =>
          ⟨.error (.clientError ("Failed to save intake result to workspace: " ++ msg)
            "/plaintext/intake"), [mr.2], [("output_configs", name, .obj response)], c⟩
    else ⟨.ok response, [mr.2], [], c⟩

/-- What the local filesystem says about the resolved upload path: absent,
present but not a regular file, openable, or failing with an `OSError`
carrying a message. -/
inductive FileStat where
  | missing : FileStat
  | notFile : FileStat
  | readable : FileStat
  | readFails (msg : String) : FileStat

/-- Method `ForgeClient.intake_plaintext_file`: validate the resolved path
(`file_abs`), upload the file to POST `/plaintext/intake_file`, return the
response dict, optionally persisting it (a save failure becomes a
`ForgeClientError`).  File-path problems are `ForgeClientError`s raised
before any request. -/
def intake_plaintext_file (c : ForgeClientState) (exchange : String → ExchangeOutcome)
    (save : SaveFn) (file_abs : String) (stat : FileStat)
    (save_as : Option String) : OpTrace JDict :=
  match stat with
  | .missing =>
      ⟨.error (.clientError ("File not found: " ++ file_abs) "/plaintext/intake_file"),
        [], [], c⟩
  | .notFile =>
      ⟨.error (.clientError ("Not a file: " ++ file_abs) "/plaintext/intake_file"),
        [], [], c⟩
  | .readFails msg =>
      ⟨.error (.clientError ("Failed to read file " ++ file_abs ++ ": " ++ msg)
        "/plaintext/intake_file"), [], [], c⟩
  | .readable =>
    let mr := makeRequest c.base_url "/plaintext/intake_file" exchange
    match mr.1 with
    | .error e => ⟨.error e, [mr.2], [], c⟩
    | .ok response =>
      if pyTruthyOptStr save_as then
        let name := save_as.getD ""
        match save "output_configs" name (.obj response) with
        | .ok _path => ⟨.ok response, [mr.2], [("output_configs", name, .obj response)], c⟩
        | .error msg =>
            ⟨.error (.clientError ("Failed to save intake result to workspace: " ++ msg)
              "/plaintext/intake_file"), [mr.2], [("output_configs", name, .obj response)], c⟩
      else ⟨.ok response, [mr.2], [], c⟩

/-! ## Workspace artifact store -/

/-- Modelled from the spec: the fixed set of named subdirectories of a
workspace ("output_configs", "output_docx", "input_docx",
"input_unzipped"), owned by the `FilesystemWorkspace` whose implementation
is not in the sources (only its factory, tests and callers are). -/
def workspaceDirs : List String :=
  ["output_configs", "output_docx", "input_docx", "input_unzipped"]

/-- Modelled from the spec: a Workspace owns a root directory and a run
identifier; persisted state lives at `<root>/<run-id>/<named-dir>/<key>.json`. -/
structure Workspace where
  base_root : String
  run_id : String

/-- The JSON files on disk, keyed by absolute path. -/
abbrev FileStore := List (String × JValue)

/-- Modelled from the spec: `directory(name) -> path` (fails if name
unknown). -/
def Workspace.directory (ws : Workspace) (name : String) : Except String String :=
  if name ∈ workspaceDirs then
    .ok (ws.base_root ++ "/" ++ ws.run_id ++ "/" ++ name)
  else
    .error ("Unknown workspace directory: " ++ name)

/-- Modelled from the spec: `save_json(dir, key, value) -> path` writes the
value at `<dir-path>/<key>.json` and returns that path. -/
def Workspace.save_json (ws : Workspace) (fs : FileStore) (dir key : String)
    (value : JValue) : Except String (String × FileStore) :=
  match ws.directory dir with
  | .error e => .error e
  | .ok d =>
      let path := d ++ "/" ++ key ++ ".json"
      .ok (path, (path, value) :: fs)

/-- Modelled from the spec: `load_json(dir, key) -> value` reads the value
stored at `<dir-path>/<key>.json`. -/
def Workspace.load_json (ws : Workspace) (fs : FileStore) (dir key : String) :
    Except String JValue :=
  match ws.directory dir with
  | .error e => .error e
  | .ok d =>
      let path := d ++ "/" ++ key ++ ".json"
      match JValue.dget fs path with
      | some v => .ok v
      | none => .error ("No such artifact: " ++ path)

/-! ## Statement helpers and concrete fixtures -/

/-- The `ForgeClientIOError` message `_make_request` builds for each kind of
transport failure. -/
def ioMessage : HttpxFailure → String → String
  | .timeout, ep => "Request timeout for " ++ ep
  | .network, ep => "Network error for " ++ ep
  | .otherHttp, ep => "HTTP client error for " ++ ep

/-- An empty process environment. -/
def wEnvNone : String → Option String := fun _ => none

/-- An environment carrying only a credential variable. -/
def wEnvKey : String → Option String :=
  fun k => if k = "GLYPH_API_KEY" then some "secret-key" else none

/-- An environment carrying only `GLYPH_API_BASE`. -/
def wEnvBase : String → Option String :=
  fun k => if k = "GLYPH_API_BASE" then some "https://staging.api.com" else none

/-- A concrete client (explicit base URL with a trailing slash). -/
def wClient : ForgeClientState := mkClient (some "https://w.example/") wEnvNone 30

/-- A workspace save that always succeeds. -/
def wSaveOk : SaveFn := fun _ _ _ => .ok "/ws/default/output_configs/x.json"

/-- A workspace save that always raises. -/
def wSaveFail : SaveFn := fun _ _ _ => .error "disk full"

/-- A concrete non-2xx response. -/
def wResp404 : HttpResponse := ⟨404, "Invalid DOCX file", none⟩

/-- A concrete successful response dict for all operations. -/
def wDictOk : JDict :=
  [("schema", .obj [("version", .str "1.0")]),
   ("status", .str "success"),
   ("docx_url", .str "/tmp/output.docx")]

/-- A concrete 2xx response carrying `wDictOk`. -/
def wRespOk : HttpResponse := ⟨200, "", some wDictOk⟩

/-- An exchange answering every request with `wRespOk`. -/
def wExOk : String → ExchangeOutcome := fun _ => .response wRespOk

/-- A 2xx response dict whose run status is `"failed"` (and without a
`"schema"` key). -/
def wDictFailed : JDict := [("status", .str "failed"), ("error", .str "Invalid schema structure")]

/-- A 2xx response dict reporting success but without a `"docx_url"` key. -/
def wDictNoDocx : JDict := [("status", .str "success")]

/-- A 2xx response dict whose `"schema"` key holds an empty dict. -/
def wDictFalsySchema : JDict := [("schema", .obj [])]

/-- A concrete schema to run. -/
def wSchema : JDict := [("version", .str "1.0"), ("blocks", .arr [])]

/-! ## Association lists with equal lookups sort identically -/

/-- Strict key order on object fields. -/
def keyLT (p q : String × JValue) : Prop := p.1 < q.1

instance : IsAntisymm (String × JValue) keyLT :=
  ⟨fun _ _ h h' => absurd h' (lt_asymm h)⟩

theorem dget_eq_some_of_mem {l : JDict} {k : String} {v : JValue}
    (hn : (l.map Prod.fst).Nodup) (hm : (k, v) ∈ l) : JValue.dget l k = some v := by
  induction l with
  | nil => cases hm
  | cons hd tl ih =>
      obtain ⟨k', v'⟩ := hd
      have hcast : (k' :: tl.map Prod.fst).Nodup := by simpa using hn
      have hn' := List.nodup_cons.mp hcast
      rcases List.mem_cons.mp hm with h | h
      · obtain ⟨rfl, rfl⟩ : k' = k ∧ v' = v := Prod.mk.injEq .. ▸ h.symm
        simp [JValue.dget]
      · have hk : k' ≠ k := fun he =>
          hn'.1 (he.symm ▸ List.mem_map.mpr ⟨(k, v), h, rfl⟩)
        simp only [JValue.dget, if_neg hk]
        exact ih hn'.2 h

theorem mem_of_dget_eq_some {l : JDict} {k : String} {v : JValue}
    (h : JValue.dget l k = some v) : (k, v) ∈ l := by
  induction l with
  | nil => simp [JValue.dget] at h
  | cons hd tl ih =>
      obtain ⟨k', v'⟩ := hd
      by_cases hk : k' = k
      · subst hk
        simp [JValue.dget] at h
        subst h
        exact List.mem_cons_self _ _
      · simp only [JValue.dget, if_neg hk] at h
        exact List.mem_cons_of_mem _ (ih h)

theorem perm_of_dget_eq {l₁ l₂ : JDict}
    (hn₁ : (l₁.map Prod.fst).Nodup) (hn₂ : (l₂.map Prod.fst).Nodup)
    (h : ∀ k, JValue.dget l₁ k = JValue.dget l₂ k) : l₁.Perm l₂ := by
  refine (List.perm_ext_iff_of_nodup (List.Nodup.of_map _ hn₁)
    (List.Nodup.of_map _ hn₂)).mpr fun a => ?_
  obtain ⟨k, v⟩ := a
  constructor
  · intro hm
    exact mem_of_dget_eq_some (h k ▸ dget_eq_some_of_mem hn₁ hm)
  · intro hm
    exact mem_of_dget_eq_some ((h k).symm ▸ dget_eq_some_of_mem hn₂ hm)

theorem pairwise_keyLT_of_le_nodup {l : JDict}
    (hs : List.Pairwise keyLE l) (hn : (l.map Prod.fst).Nodup) :
    List.Pairwise keyLT l := by
  have h2 : l.Pairwise (fun a b => a.1 ≠ b.1) := by
    rw [List.Nodup, List.pairwise_map] at hn
    exact hn
  exact (List.Pairwise.and hs h2).imp fun hab => lt_of_le_of_ne hab.1 hab.2

/-- Two dicts with no duplicate keys and the same lookup function have the
same `sort_keys=True` field order. -/
theorem sortFields_eq_of_dget_eq {l₁ l₂ : JDict}
    (hn₁ : (l₁.map Prod.fst).Nodup) (hn₂ : (l₂.map Prod.fst).Nodup)
    (h : ∀ k, JValue.dget l₁ k = JValue.dget l₂ k) :
    sortFields l₁ = sortFields l₂ := by
  have hp : (sortFields l₁).Perm (sortFields l₂) :=
    ((List.perm_insertionSort keyLE l₁).trans (perm_of_dget_eq hn₁ hn₂ h)).trans
      (List.perm_insertionSort keyLE l₂).symm
  have hs₁ : List.Pairwise keyLE (sortFields l₁) := List.sorted_insertionSort keyLE l₁
  have hs₂ : List.Pairwise keyLE (sortFields l₂) := List.sorted_insertionSort keyLE l₂
  have hnn₁ : ((sortFields l₁).map Prod.fst).Nodup :=
    (((List.perm_insertionSort keyLE l₁).map Prod.fst).nodup_iff).mpr hn₁
  have hnn₂ : ((sortFields l₂).map Prod.fst).Nodup :=
    (((List.perm_insertionSort keyLE l₂).map Prod.fst).nodup_iff).mpr hn₂
  exact List.eq_of_perm_of_sorted hp
    (pairwise_keyLT_of_le_nodup hs₁ hnn₁) (pairwise_keyLT_of_le_nodup hs₂ hnn₂)

/-- Unfolding of `dumps` on an object, with the sorted field list exposed. -/
theorem dumps_obj (fs : JDict) :
    dumps (.obj fs) =
      "\x7b" ++
        joinComma ((sortFields fs).attach.map fun f =>
          jsonQuote f.1.1 ++ ": " ++ dumps f.1.2) ++
      "\x7d" := by
  rw [dumps]

/-- The `run_schema` schema hash only depends on the schema as a mapping. -/
theorem schemaHash_eq_of_dget_eq {l₁ l₂ : JDict}
    (hn₁ : (l₁.map Prod.fst).Nodup) (hn₂ : (l₂.map Prod.fst).Nodup)
    (h : ∀ k, JValue.dget l₁ k = JValue.dget l₂ k) :
    schemaHash l₁ = schemaHash l₂ := by
  have hd : dumps (.obj l₁) = dumps (.obj l₂) := by
    rw [dumps_obj, dumps_obj, sortFields_eq_of_dget_eq hn₁ hn₂ h]
  unfold schemaHash
  rw [hd]

/-! ## Behaviour of `_make_request` -/

theorem makeRequest_snd (b ep : String) (ex : String → ExchangeOutcome) :
    (makeRequest b ep ex).2 = b ++ ep := rfl

theorem makeRequest_failure (b ep : String) (e : HttpxFailure) :
    (makeRequest b ep (fun _ => .failure e)).1
      = .error (.ioError (ioMessage e ep) ep e) := by
  cases e <;> rfl

theorem makeRequest_non2xx (b ep : String) (r : HttpResponse)
    (hbad : ¬ (200 ≤ r.status_code ∧ r.status_code < 300)) :
    (makeRequest b ep (fun _ => .response r)).1
      = .error (.httpError ("HTTP " ++ toString r.status_code ++ " from " ++ ep)
          r.status_code r.text ep) := by
  simp only [makeRequest, if_pos hbad]

theorem makeRequest_ok (b ep : String) (r : HttpResponse) (d : JDict)
    (h2xx : 200 ≤ r.status_code ∧ r.status_code < 300) (hj : r.jsonResult = some d) :
    (makeRequest b ep (fun _ => .response r)).1 = .ok d := by
  simp only [makeRequest, if_neg (not_not_intro h2xx), hj]

/-! ## The claims -/

/-- C1: For every client operation (build_schema_from_docx, run_schema,
intake_plaintext_text, intake_plaintext_file, all via `_make_request`), if
the HTTP response has a status code outside [200, 300), the operation
raises an HTTP-kind error (`ForgeClientHTTPError`) that carries exactly
the original response status code and the original response body text. -/
theorem claim_C1 (c : ForgeClientState) (save : SaveFn) (r : HttpResponse)
    (hbad : ¬ (200 ≤ r.status_code ∧ r.status_code < 300))
    (docx_abs : String) (save_as : Option String) (schema : JDict)
    (plaintext dest_name now text file_abs : String) :
    (build_schema_from_docx c (fun _ => .response r) save docx_abs save_as).result
        = .error (.httpError ("HTTP " ++ toString r.status_code ++ " from " ++ "/schema/build")
            r.status_code r.text "/schema/build")
    ∧ (run_schema c (fun _ => .response r) save schema plaintext dest_name now).result
        = .error (.httpError ("HTTP " ++ toString r.status_code ++ " from " ++ "/schema/run")
            r.status_code r.text "/schema/run")
    ∧ (intake_plaintext_text c (fun _ => .response r) save text save_as).result
        = .error (.httpError ("HTTP " ++ toString r.status_code ++ " from " ++ "/plaintext/intake")
            r.status_code r.text "/plaintext/intake")
    ∧ (intake_plaintext_file c (fun _ => .response r) save file_abs .readable save_as).result
        = .error (.httpError ("HTTP " ++ toString r.status_code ++ " from " ++ "/plaintext/intake_file")
            r.status_code r.text "/plaintext/intake_file") := by
  have h1 := makeRequest_non2xx c.base_url "/schema/build" r hbad
  have h2 := makeRequest_non2xx c.base_url "/schema/run" r hbad
  have h3 := makeRequest_non2xx c.base_url "/plaintext/intake" r hbad
  have h4 := makeRequest_non2xx c.base_url "/plaintext/intake_file" r hbad
  refine ⟨?_, ?_, ?_, ?_⟩
  · simp [build_schema_from_docx, h1]
  · simp [run_schema, h2]
  · simp [intake_plaintext_text, h3]
  · simp [intake_plaintext_file, h4]

/-- Witness for C1 at a concrete 404 response. -/
theorem claim_C1_witness :
    (¬ ((200 : Int) ≤ wResp404.status_code ∧ wResp404.status_code < 300))
    ∧ (build_schema_from_docx wClient (fun _ => .response wResp404) wSaveOk
        "/tmp/a.docx" none).result
        = .error (.httpError ("HTTP " ++ toString wResp404.status_code ++ " from " ++ "/schema/build")
            wResp404.status_code wResp404.text "/schema/build")
    ∧ (run_schema wClient (fun _ => .response wResp404) wSaveOk [] "t" "o.docx" "now").result
        = .error (.httpError ("HTTP " ++ toString wResp404.status_code ++ " from " ++ "/schema/run")
            wResp404.status_code wResp404.text "/schema/run")
    ∧ (intake_plaintext_text wClient (fun _ => .response wResp404) wSaveOk "t" none).result
        = .error (.httpError ("HTTP " ++ toString wResp404.status_code ++ " from " ++ "/plaintext/intake")
            wResp404.status_code wResp404.text "/plaintext/intake")
    ∧ (intake_plaintext_file wClient (fun _ => .response wResp404) wSaveOk
        "/tmp/f.txt" .readable none).result
        = .error (.httpError ("HTTP " ++ toString wResp404.status_code ++ " from " ++ "/plaintext/intake_file")
            wResp404.status_code wResp404.text "/plaintext/intake_file") :=
  ⟨by decide,
   (claim_C1 wClient wSaveOk wResp404 (by decide) "/tmp/a.docx" none [] "t" "o.docx" "now" "t" "/tmp/f.txt").1,
   (claim_C1 wClient wSaveOk wResp404 (by decide) "/tmp/a.docx" none [] "t" "o.docx" "now" "t" "/tmp/f.txt").2.1,
   (claim_C1 wClient wSaveOk wResp404 (by decide) "/tmp/a.docx" none [] "t" "o.docx" "now" "t" "/tmp/f.txt").2.2.1,
   (claim_C1 wClient wSaveOk wResp404 (by decide) "/tmp/a.docx" none [] "t" "o.docx" "now" "t" "/tmp/f.txt").2.2.2⟩

/-- C2: For every client operation, if the underlying HTTP exchange fails
with a timeout or a network/connection error (before any HTTP status is
obtained), the operation raises an I/O-kind error (`ForgeClientIOError`)
wrapping the underlying cause, and never an HTTP-kind error
(`ForgeClientHTTPError`): the result is exactly the I/O error built from
the failure. -/
theorem claim_C2 (c : ForgeClientState) (save : SaveFn) (e : HttpxFailure)
    (docx_abs : String) (save_as : Option String) (schema : JDict)
    (plaintext dest_name now text file_abs : String) :
    (build_schema_from_docx c (fun _ => .failure e) save docx_abs save_as).result
        = .error (.ioError (ioMessage e "/schema/build") "/schema/build" e)
    ∧ (run_schema c (fun _ => .failure e) save schema plaintext dest_name now).result
        = .error (.ioError (ioMessage e "/schema/run") "/schema/run" e)
    ∧ (intake_plaintext_text c (fun _ => .failure e) save text save_as).result
        = .error (.ioError (ioMessage e "/plaintext/intake") "/plaintext/intake" e)
    ∧ (intake_plaintext_file c (fun _ => .failure e) save file_abs .readable save_as).result
        = .error (.ioError (ioMessage e "/plaintext/intake_file") "/plaintext/intake_file" e) := by
  have h1 := makeRequest_failure c.base_url "/schema/build" e
  have h2 := makeRequest_failure c.base_url "/schema/run" e
  have h3 := makeRequest_failure c.base_url "/plaintext/intake" e
  have h4 := makeRequest_failure c.base_url "/plaintext/intake_file" e
  refine ⟨?_, ?_, ?_, ?_⟩
  · simp [build_schema_from_docx, h1]
  · simp [run_schema, h2]
  · simp [intake_plaintext_text, h3]
  · simp [intake_plaintext_file, h4]

/-- C3: When a 2xx response from the service lacks an expected field — the
`"schema"` key for build_schema_from_docx, or the `"docx_url"` key (or a
`"status"` other than `"success"`) for run_schema — the operation raises a
generic client error (`ForgeClientError`, carrying a message and the
endpoint), and never raises any other exception kind or crashes (the
result is exactly that client error; the embedding is total). -/
theorem claim_C3 (c : ForgeClientState) (save : SaveFn) (r : HttpResponse) (d : JDict)
    (h2xx : 200 ≤ r.status_code ∧ r.status_code < 300) (hj : r.jsonResult = some d)
    (docx_abs : String) (save_as : Option String) (schema : JDict)
    (plaintext dest_name now : String) :
    (JValue.dget d "schema" = none →
      (build_schema_from_docx c (fun _ => .response r) save docx_abs save_as).result
        = .error (.clientError "Missing 'schema' in API response" "/schema/build"))
    ∧ (isSuccessStatus (JValue.dget d "status") = false →
      (run_schema c (fun _ => .response r) save schema plaintext dest_name now).result
        = .error (.clientError
            ("Schema run failed with status=" ++ pyStrOpt (JValue.dget d "status"))
            "/schema/run"))
    ∧ (isSuccessStatus (JValue.dget d "status") = true → JValue.dget d "docx_url" = none →
      (run_schema c (fun _ => .response r) save schema plaintext dest_name now).result
        = .error (.clientError "Missing 'docx_url' in API response" "/schema/run")) := by
  have hb := makeRequest_ok c.base_url "/schema/build" r d h2xx hj
  have hr := makeRequest_ok c.base_url "/schema/run" r d h2xx hj
  refine ⟨?_, ?_, ?_⟩
  · intro hnone
    simp [build_schema_from_docx, hb, hnone]
  · intro hst
    simp [run_schema, hr, hst]
  · intro hst hdnone
    simp [run_schema, hr, hst, hdnone]

/-- Witness for C3 at concrete incomplete 200-responses. -/
theorem claim_C3_witness :
    (build_schema_from_docx wClient (fun _ => .response ⟨200, "", some wDictFailed⟩)
        wSaveOk "/tmp/a.docx" none).result
      = .error (.clientError "Missing 'schema' in API response" "/schema/build")
    ∧ (run_schema wClient (fun _ => .response ⟨200, "", some wDictFailed⟩)
        wSaveOk [] "t" "o.docx" "now").result
      = .error (.clientError
          ("Schema run failed with status=" ++ pyStrOpt (JValue.dget wDictFailed "status"))
          "/schema/run")
    ∧ (run_schema wClient (fun _ => .response ⟨200, "", some wDictNoDocx⟩)
        wSaveOk [] "t" "o.docx" "now").result
      = .error (.clientError "Missing 'docx_url' in API response" "/schema/run") :=
  ⟨(claim_C3 wClient wSaveOk ⟨200, "", some wDictFailed⟩ wDictFailed (by decide) rfl
      "/tmp/a.docx" none [] "t" "o.docx" "now").1 rfl,
   (claim_C3 wClient wSaveOk ⟨200, "", some wDictFailed⟩ wDictFailed (by decide) rfl
      "/tmp/a.docx" none [] "t" "o.docx" "now").2.1 rfl,
   (claim_C3 wClient wSaveOk ⟨200, "", some wDictNoDocx⟩ wDictNoDocx (by decide) rfl
      "/tmp/a.docx" none [] "t" "o.docx" "now").2.2 rfl rfl⟩

/-- C9: build_schema_from_docx treats a present-but-falsy `"schema"` value
as missing: if the 2xx response maps `"schema"` to an empty dict (or any
falsy value such as null), the call raises `ForgeClientError` with the
"Missing 'schema'" message even though the key exists in the response, and
no save_as persistence is attempted. -/
theorem claim_C9 (c : ForgeClientState) (save : SaveFn) (r : HttpResponse) (d : JDict)
    (v : JValue) (h2xx : 200 ≤ r.status_code ∧ r.status_code < 300)
    (hj : r.jsonResult = some d) (hv : JValue.dget d "schema" = some v)
    (hfalsy : v.truthy = false) (docx_abs : String) (save_as : Option String) :
    (build_schema_from_docx c (fun _ => .response r) save docx_abs save_as).result
      = .error (.clientError "Missing 'schema' in API response" "/schema/build")
    ∧ (build_schema_from_docx c (fun _ => .response r) save docx_abs save_as).saves = [] := by
  have hb := makeRequest_ok c.base_url "/schema/build" r d h2xx hj
  constructor
  · simp [build_schema_from_docx, hb, hv, hfalsy]
  · simp [build_schema_from_docx, hb, hv, hfalsy]

/-- Witness for C9 at a 200-response mapping `"schema"` to `{}`. -/
theorem claim_C9_witness :
    (build_schema_from_docx wClient (fun _ => .response ⟨200, "", some wDictFalsySchema⟩)
        wSaveOk "/tmp/a.docx" (some "my_schema")).result
      = .error (.clientError "Missing 'schema' in API response" "/schema/build")
    ∧ (build_schema_from_docx wClient (fun _ => .response ⟨200, "", some wDictFalsySchema⟩)
        wSaveOk "/tmp/a.docx" (some "my_schema")).saves = [] :=
  claim_C9 wClient wSaveOk ⟨200, "", some wDictFalsySchema⟩ wDictFalsySchema (.obj [])
    (by decide) rfl rfl rfl "/tmp/a.docx" (some "my_schema")

/-- C5: Persistence failures are non-fatal exactly when they are
incidental: if the workspace save_json raises while run_schema writes its
run manifest, run_schema still returns the docx_url from the response
(the failure is only logged, not propagated); whereas if save_json raises
while persisting an explicitly requested save_as artifact in
build_schema_from_docx, intake_plaintext_text, or intake_plaintext_file,
the operation raises a generic client error (`ForgeClientError`).
`save` here always raises with message `msg`. -/
theorem claim_C5 (c : ForgeClientState) (save : SaveFn) (msg : String)
    (hsavefail : ∀ dir key v, save dir key v = .error msg)
    (r : HttpResponse) (d : JDict)
    (h2xx : 200 ≤ r.status_code ∧ r.status_code < 300) (hj : r.jsonResult = some d)
    (sv : JValue) (hsv : JValue.dget d "schema" = some sv) (htr : sv.truthy = true)
    (hst : isSuccessStatus (JValue.dget d "status") = true)
    (du : JValue) (hdu : JValue.dget d "docx_url" = some du) (hdtr : du.truthy = true)
    (schema : JDict) (plaintext dest_name now docx_abs text file_abs name : String)
    (hname : name ≠ "") :
    (run_schema c (fun _ => .response r) save schema plaintext dest_name now).result
        = .ok du
    ∧ (build_schema_from_docx c (fun _ => .response r) save docx_abs (some name)).result
        = .error (.clientError ("Failed to save schema to workspace: " ++ msg)
            "/schema/build")
    ∧ (intake_plaintext_text c (fun _ => .response r) save text (some name)).result
        = .error (.clientError ("Failed to save intake result to workspace: " ++ msg)
            "/plaintext/intake")
    ∧ (intake_plaintext_file c (fun _ => .response r) save file_abs .readable
        (some name)).result
        = .error (.clientError ("Failed to save intake result to workspace: " ++ msg)
            "/plaintext/intake_file") := by
  have hrr := makeRequest_ok c.base_url "/schema/run" r d h2xx hj
  have hrb := makeRequest_ok c.base_url "/schema/build" r d h2xx hj
  have hrt := makeRequest_ok c.base_url "/plaintext/intake" r d h2xx hj
  have hrf := makeRequest_ok c.base_url "/plaintext/intake_file" r d h2xx hj
  refine ⟨?_, ?_, ?_, ?_⟩
  · simp [run_schema, hrr, hst, hdu, hdtr]
  · simp [build_schema_from_docx, hrb, hsv, htr, pyTruthyOptStr, hname, hsavefail]
  · simp [intake_plaintext_text, hrt, pyTruthyOptStr, hname, hsavefail]
  · simp [intake_plaintext_file, hrf, pyTruthyOptStr, hname, hsavefail]

/-- Witness for C5: an always-raising save, a fully successful response. -/
theorem claim_C5_witness :
    (run_schema wClient (fun _ => .response wRespOk) wSaveFail wSchema "t" "o.docx"
        "now").result = .ok (.str "/tmp/output.docx")
    ∧ (build_schema_from_docx wClient (fun _ => .response wRespOk) wSaveFail
        "/tmp/a.docx" (some "my_schema")).result
        = .error (.clientError ("Failed to save schema to workspace: " ++ "disk full")
            "/schema/build")
    ∧ (intake_plaintext_text wClient (fun _ => .response wRespOk) wSaveFail "t"
        (some "intake_result")).result
        = .error (.clientError ("Failed to save intake result to workspace: " ++ "disk full")
            "/plaintext/intake")
    ∧ (intake_plaintext_file wClient (fun _ => .response wRespOk) wSaveFail "/tmp/f.txt"
        .readable (some "intake_result")).result
        = .error (.clientError ("Failed to save intake result to workspace: " ++ "disk full")
            "/plaintext/intake_file") := by
  have h1 := claim_C5 wClient wSaveFail "disk full" (fun _ _ _ => rfl) wRespOk wDictOk
    (by decide) rfl (.obj [("version", .str "1.0")]) rfl rfl rfl
    (.str "/tmp/output.docx") rfl rfl wSchema "t" "o.docx" "now" "/tmp/a.docx" "t"
    "/tmp/f.txt" "my_schema" (by decide)
  have h2 := claim_C5 wClient wSaveFail "disk full" (fun _ _ _ => rfl) wRespOk wDictOk
    (by decide) rfl (.obj [("version", .str "1.0")]) rfl rfl rfl
    (.str "/tmp/output.docx") rfl rfl wSchema "t" "o.docx" "now" "/tmp/a.docx" "t"
    "/tmp/f.txt" "intake_result" (by decide)
  exact ⟨h1.1, h1.2.1, h2.2.2.1, h2.2.2.2⟩

/-- A status object passing the `!= "success"` guard is the string
`"success"`. -/
theorem isSuccessStatus_getD : ∀ {o : Option JValue},
    isSuccessStatus o = true → o.getD .null = .str "success"
  | some (.str s), h => by
      have hs : s = "success" := by simpa [isSuccessStatus] using h
      simp [hs]
  | none, h => by simp [isSuccessStatus] at h
  | some .null, h => by simp [isSuccessStatus] at h
  | some (.bool b), h => by simp [isSuccessStatus] at h
  | some (.int n), h => by simp [isSuccessStatus] at h
  | some (.arr xs), h => by simp [isSuccessStatus] at h
  | some (.obj fs), h => by simp [isSuccessStatus] at h

/-- C4: For every schema mapping and plaintext input, a run_schema call
that reaches terminal success writes a run manifest containing a
timestamp, a content hash of the schema, the output reference (docx_url),
the destination name, the input size (plaintext length), and the status;
the schema hash is stable, i.e. it is the first 16 hex characters of the
SHA-256 of the schema's JSON serialization with sorted keys, so any two
schemas equal as mappings (regardless of key insertion order) produce the
same hash. -/
theorem claim_C4 (c : ForgeClientState) (save : SaveFn) (schema : JDict)
    (plaintext dest_name now : String) (r : HttpResponse) (d : JDict) (du : JValue)
    (h2xx : 200 ≤ r.status_code ∧ r.status_code < 300) (hj : r.jsonResult = some d)
    (hst : isSuccessStatus (JValue.dget d "status") = true)
    (hdu : JValue.dget d "docx_url" = some du) (hdtr : du.truthy = true) :
    (run_schema c (fun _ => .response r) save schema plaintext dest_name now).saves
      = [("output_configs", "run_manifest",
          .obj (runManifest now schema du dest_name plaintext (.str "success")))]
    ∧ (JValue.dget (runManifest now schema du dest_name plaintext (.str "success"))
          "timestamp" = some (.str now)
       ∧ JValue.dget (runManifest now schema du dest_name plaintext (.str "success"))
          "schema_hash" = some (.str (schemaHash schema))
       ∧ JValue.dget (runManifest now schema du dest_name plaintext (.str "success"))
          "docx_url" = some du
       ∧ JValue.dget (runManifest now schema du dest_name plaintext (.str "success"))
          "dest_name" = some (.str dest_name)
       ∧ JValue.dget (runManifest now schema du dest_name plaintext (.str "success"))
          "plaintext_length" = some (.int plaintext.length)
       ∧ JValue.dget (runManifest now schema du dest_name plaintext (.str "success"))
          "status" = some (.str "success"))
    ∧ schemaHash schema
        = (hexDigest (sha256 (utf8Encode (dumps (.obj schema))))).take 16
    ∧ (∀ schema₂ : JDict, (schema.map Prod.fst).Nodup → (schema₂.map Prod.fst).Nodup →
        (∀ k, JValue.dget schema k = JValue.dget schema₂ k) →
        schemaHash schema = schemaHash schema₂) := by
  have hrr := makeRequest_ok c.base_url "/schema/run" r d h2xx hj
  have hsv := isSuccessStatus_getD hst
  refine ⟨?_, ⟨rfl, rfl, rfl, rfl, rfl, rfl⟩, rfl, ?_⟩
  · simp [run_schema, hrr, hst, hdu, hdtr, hsv]
  · exact fun s₂ hn₁ hn₂ heq => schemaHash_eq_of_dget_eq hn₁ hn₂ heq

/-- Witness for C4 at a concrete successful run. -/
theorem claim_C4_witness :
    (run_schema wClient (fun _ => .response wRespOk) wSaveOk wSchema "t" "o.docx"
        "now").saves
      = [("output_configs", "run_manifest",
          .obj (runManifest "now" wSchema (.str "/tmp/output.docx") "o.docx" "t"
            (.str "success")))]
    ∧ (JValue.dget (runManifest "now" wSchema (.str "/tmp/output.docx") "o.docx" "t"
          (.str "success")) "timestamp" = some (.str "now")
       ∧ JValue.dget (runManifest "now" wSchema (.str "/tmp/output.docx") "o.docx" "t"
          (.str "success")) "schema_hash" = some (.str (schemaHash wSchema))
       ∧ JValue.dget (runManifest "now" wSchema (.str "/tmp/output.docx") "o.docx" "t"
          (.str "success")) "docx_url" = some (.str "/tmp/output.docx")
       ∧ JValue.dget (runManifest "now" wSchema (.str "/tmp/output.docx") "o.docx" "t"
          (.str "success")) "dest_name" = some (.str "o.docx")
       ∧ JValue.dget (runManifest "now" wSchema (.str "/tmp/output.docx") "o.docx" "t"
          (.str "success")) "plaintext_length" = some (.int ("t" : String).length)
       ∧ JValue.dget (runManifest "now" wSchema (.str "/tmp/output.docx") "o.docx" "t"
          (.str "success")) "status" = some (.str "success"))
    ∧ schemaHash wSchema
        = (hexDigest (sha256 (utf8Encode (dumps (.obj wSchema))))).take 16
    ∧ (∀ schema₂ : JDict, (wSchema.map Prod.fst).Nodup → (schema₂.map Prod.fst).Nodup →
        (∀ k, JValue.dget wSchema k = JValue.dget schema₂ k) →
        schemaHash wSchema = schemaHash schema₂) :=
  claim_C4 wClient wSaveOk wSchema "t" "o.docx" "now" wRespOk wDictOk
    (.str "/tmp/output.docx") (by decide) rfl rfl rfl rfl

/-- C8: Every run manifest that run_schema writes has its `"status"` field
equal to `"success"` and its `"plaintext_length"` field equal to the
length of the plaintext argument: the manifest write is reachable only
after the response status has been checked to equal `"success"` and
docx_url has been checked to be present. -/
theorem claim_C8 (c : ForgeClientState) (exchange : String → ExchangeOutcome)
    (save : SaveFn) (schema : JDict) (plaintext dest_name now : String) :
    ∀ e ∈ (run_schema c exchange save schema plaintext dest_name now).saves,
      ∃ m, e.2.2 = .obj m
        ∧ JValue.dget m "status" = some (.str "success")
        ∧ JValue.dget m "plaintext_length" = some (.int plaintext.length) := by
  intro e he
  rcases hmr : (makeRequest c.base_url "/schema/run" exchange).1 with err | response
  · simp [run_schema, hmr] at he
  · cases hst : isSuccessStatus (JValue.dget response "status") with
    | false => simp [run_schema, hmr, hst] at he
    | true =>
      rcases hdu : JValue.dget response "docx_url" with _ | du
      · simp [run_schema, hmr, hst, hdu] at he
      · cases hdtr : du.truthy with
        | false => simp [run_schema, hmr, hst, hdu, hdtr] at he
        | true =>
          have hsv := isSuccessStatus_getD hst
          simp [run_schema, hmr, hst, hdu, hdtr, hsv] at he
          refine ⟨runManifest now schema du dest_name plaintext (.str "success"),
            ?_, rfl, rfl⟩
          rw [he]

/-- Witness for C8 at the manifest written by a concrete successful run. -/
theorem claim_C8_witness :
    ∃ m, (("output_configs", "run_manifest",
        JValue.obj (runManifest "now" wSchema (.str "/tmp/output.docx") "o.docx" "t"
          (.str "success"))) : String × String × JValue).2.2 = JValue.obj m
      ∧ JValue.dget m "status" = some (.str "success")
      ∧ JValue.dget m "plaintext_length" = some (.int ("t" : String).length) :=
  claim_C8 wClient wExOk wSaveOk wSchema "t" "o.docx" "now"
    ("output_configs", "run_manifest",
      JValue.obj (runManifest "now" wSchema (.str "/tmp/output.docx") "o.docx" "t"
        (.str "success")))
    (List.mem_singleton.mpr rfl)

/-- C6: For every workspace, directory name, key, and JSON-serializable
value, calling load_json(dir, key) after save_json(dir, key, value)
returns a value equal to the one saved (whenever the save itself
succeeded, i.e. the directory name is a known one). -/
theorem claim_C6 (ws : Workspace) (fs : FileStore) (dir key : String) (v : JValue)
    (p : String) (fs' : FileStore)
    (h : ws.save_json fs dir key v = .ok (p, fs')) :
    ws.load_json fs' dir key = .ok v := by
  unfold Workspace.save_json at h
  rcases hd : ws.directory dir with e | d
  · rw [hd] at h
    cases h
  · rw [hd] at h
    have hp : d ++ "/" ++ key ++ ".json" = p ∧ ((d ++ "/" ++ key ++ ".json", v) :: fs) = fs' := by
      cases h
      exact ⟨rfl, rfl⟩
    unfold Workspace.load_json
    rw [hd, ← hp.2]
    simp [JValue.dget]

/-- Witness for C6: a concrete save followed by a load. -/
theorem claim_C6_witness :
    (⟨"/ws", "default"⟩ : Workspace).save_json [] "output_configs" "test_schema" (.int 5)
      = .ok ("/ws/default/output_configs/test_schema.json",
             [("/ws/default/output_configs/test_schema.json", .int 5)])
    ∧ (⟨"/ws", "default"⟩ : Workspace).load_json
        [("/ws/default/output_configs/test_schema.json", .int 5)]
        "output_configs" "test_schema" = .ok (.int 5) :=
  ⟨rfl,
   claim_C6 ⟨"/ws", "default"⟩ [] "output_configs" "test_schema" (.int 5)
     "/ws/default/output_configs/test_schema.json"
     [("/ws/default/output_configs/test_schema.json", .int 5)] rfl⟩

/-- Counterexample to C7 as stated: the constructed client takes no
credential from the environment at all — construction under an
environment holding a credential (`GLYPH_API_KEY = "secret-key"`) yields
exactly the same client state as under an empty environment, and the
client state (just `base_url` and `timeout`, per `ForgeClient.__init__`)
has no credential field to begin with (`forge_client.py` is explicitly
"No authentication (no API keys)"). -/
theorem claim_C7_counterexample :
    mkClient none wEnvKey 30 = mkClient none wEnvNone 30
    ∧ (mkClient none wEnvKey 30).base_url = DEFAULT_BASE_URL := by
  constructor
  · rfl
  · decide

/-- C7 (amended): Constructing a ForgeClient without an explicit base_url
resolves the base URL from the GLYPH_API_BASE environment variable
(falling back to the default "https://api.glyphapi.ai"); the client holds
no credential — its construction depends on the environment only through
GLYPH_API_BASE (the MVP client is unauthenticated). -/
theorem claim_C7 :
    (∀ (env : String → Option String) (t : ℚ), env "GLYPH_API_BASE" = none →
        (mkClient none env t).base_url = DEFAULT_BASE_URL)
    ∧ (∀ (env : String → Option String) (t : ℚ) (s : String),
        env "GLYPH_API_BASE" = some s → s ≠ "" →
        (mkClient none env t).base_url = rstripSlashes s)
    ∧ (∀ (b : Option String) (env₁ env₂ : String → Option String) (t : ℚ),
        env₁ "GLYPH_API_BASE" = env₂ "GLYPH_API_BASE" →
        mkClient b env₁ t = mkClient b env₂ t) := by
  have hdef : rstripSlashes DEFAULT_BASE_URL = DEFAULT_BASE_URL := by decide
  refine ⟨?_, ?_, ?_⟩
  · intro env t h
    simp [mkClient, pyOrStr, h, hdef]
  · intro env t s h hs
    simp [mkClient, pyOrStr, h, hs]
  · intro b env₁ env₂ t h
    simp [mkClient, h]

/-- Witness for C7 at concrete environments. -/
theorem claim_C7_witness :
    (mkClient none wEnvNone 30).base_url = DEFAULT_BASE_URL
    ∧ (mkClient none wEnvBase 30).base_url = rstripSlashes "https://staging.api.com"
    ∧ mkClient (some "https://w.example/") wEnvKey 30
        = mkClient (some "https://w.example/") wEnvNone 30 :=
  ⟨claim_C7.1 wEnvNone 30 rfl,
   claim_C7.2.1 wEnvBase 30 "https://staging.api.com" rfl (by decide),
   claim_C7.2.2 (some "https://w.example/") wEnvKey wEnvNone 30 rfl⟩

/-- The head of `dropWhile (· = '/')` is never a slash. -/
theorem head_dropWhile_slash (l : List Char) (c : Char)
    (h : (l.dropWhile (fun x => x = '/')).head? = some c) : c ≠ '/' := by
  induction l with
  | nil => simp [List.dropWhile] at h
  | cons a t ih =>
      by_cases ha : a = '/'
      · rw [List.dropWhile_cons] at h
        simp only [ha] at h
        simp at h
        exact ih h
      · rw [List.dropWhile_cons] at h
        simp only [decide_eq_true_eq] at h
        rw [if_neg ha] at h
        simp at h
        rw [← h]
        exact ha

/-- Stripping with `rstrip("/")` leaves no trailing slash. -/
theorem rstripSlashes_no_trailing (s : String) :
    (rstripSlashes s).data.getLast? ≠ some '/' := by
  unfold rstripSlashes
  intro h
  rw [List.getLast?_reverse] at h
  exact head_dropWhile_slash _ _ h rfl

theorem build_trace_shape (c : ForgeClientState) (exchange : String → ExchangeOutcome)
    (save : SaveFn) (docx_abs : String) (save_as : Option String) :
    (build_schema_from_docx c exchange save docx_abs save_as).requests
        = [c.base_url ++ "/schema/build"]
    ∧ (build_schema_from_docx c exchange save docx_abs save_as).clientAfter = c := by
  rcases hmr : (makeRequest c.base_url "/schema/build" exchange).1 with e | resp
  · constructor <;> simp [build_schema_from_docx, hmr, makeRequest_snd]
  · rcases hs : JValue.dget resp "schema" with _ | sv
    · constructor <;> simp [build_schema_from_docx, hmr, hs, makeRequest_snd]
    · cases ht : sv.truthy
      · constructor <;> simp [build_schema_from_docx, hmr, hs, ht, makeRequest_snd]
      · cases hsa : pyTruthyOptStr save_as
        · constructor <;> simp [build_schema_from_docx, hmr, hs, ht, hsa, makeRequest_snd]
        · rcases hsv : save "output_configs" (save_as.getD "") sv with msg | pth
          · constructor <;>
              simp [build_schema_from_docx, hmr, hs, ht, hsa, hsv, makeRequest_snd]
          · constructor <;>
              simp [build_schema_from_docx, hmr, hs, ht, hsa, hsv, makeRequest_snd]

theorem run_trace_shape (c : ForgeClientState) (exchange : String → ExchangeOutcome)
    (save : SaveFn) (schema : JDict) (plaintext dest_name now : String) :
    (run_schema c exchange save schema plaintext dest_name now).requests
        = [c.base_url ++ "/schema/run"]
    ∧ (run_schema c exchange save schema plaintext dest_name now).clientAfter = c := by
  rcases hmr : (makeRequest c.base_url "/schema/run" exchange).1 with e | resp
  · constructor <;> simp [run_schema, hmr, makeRequest_snd]
  · cases hst : isSuccessStatus (JValue.dget resp "status")
    · constructor <;> simp [run_schema, hmr, hst, makeRequest_snd]
    · rcases hdu : JValue.dget resp "docx_url" with _ | du
      · constructor <;> simp [run_schema, hmr, hst, hdu, makeRequest_snd]
      · cases hdtr : du.truthy
        · constructor <;> simp [run_schema, hmr, hst, hdu, hdtr, makeRequest_snd]
        · constructor <;> simp [run_schema, hmr, hst, hdu, hdtr, makeRequest_snd]

theorem intake_text_trace_shape (c : ForgeClientState)
    (exchange : String → ExchangeOutcome) (save : SaveFn) (text : String)
    (save_as : Option String) :
    (intake_plaintext_text c exchange save text save_as).requests
        = [c.base_url ++ "/plaintext/intake"]
    ∧ (intake_plaintext_text c exchange save text save_as).clientAfter = c := by
  rcases hmr : (makeRequest c.base_url "/plaintext/intake" exchange).1 with e | resp
  · constructor <;> simp [intake_plaintext_text, hmr, makeRequest_snd]
  · cases hsa : pyTruthyOptStr save_as
    · constructor <;> simp [intake_plaintext_text, hmr, hsa, makeRequest_snd]
    · rcases hsv : save "output_configs" (save_as.getD "") (.obj resp) with msg | pth
      · constructor <;> simp [intake_plaintext_text, hmr, hsa, hsv, makeRequest_snd]
      · constructor <;> simp [intake_plaintext_text, hmr, hsa, hsv, makeRequest_snd]

theorem intake_file_trace_shape (c : ForgeClientState)
    (exchange : String → ExchangeOutcome) (save : SaveFn) (file_abs : String)
    (stat : FileStat) (save_as : Option String) :
    (∀ u ∈ (intake_plaintext_file c exchange save file_abs stat save_as).requests,
        u = c.base_url ++ "/plaintext/intake_file")
    ∧ (intake_plaintext_file c exchange save file_abs stat save_as).clientAfter = c := by
  cases stat with
  | missing => constructor <;> simp [intake_plaintext_file]
  | notFile => constructor <;> simp [intake_plaintext_file]
  | readFails msg => constructor <;> simp [intake_plaintext_file]
  | readable =>
    rcases hmr : (makeRequest c.base_url "/plaintext/intake_file" exchange).1 with e | resp
    · constructor <;> simp [intake_plaintext_file, hmr, makeRequest_snd]
    · cases hsa : pyTruthyOptStr save_as
      · constructor <;> simp [intake_plaintext_file, hmr, hsa, makeRequest_snd]
      · rcases hsv : save "output_configs" (save_as.getD "") (.obj resp) with msg | pth
        · constructor <;> simp [intake_plaintext_file, hmr, hsa, hsv, makeRequest_snd]
        · constructor <;> simp [intake_plaintext_file, hmr, hsa, hsv, makeRequest_snd]

/-- C10: After construction, a ForgeClient's base_url never ends with "/"
(any supplied trailing slashes are stripped; formalized as: its last
character is never '/'), and every request issued by any operation
targets exactly the URL formed by concatenating base_url and the endpoint
path; base_url is never mutated by any operation (the client state after
each call equals the state before). -/
theorem claim_C10 :
    (∀ (b : Option String) (env : String → Option String) (t : ℚ),
        ((mkClient b env t).base_url).data.getLast? ≠ some '/')
    ∧ (∀ (c : ForgeClientState) (exchange : String → ExchangeOutcome) (save : SaveFn)
        (docx_abs : String) (save_as : Option String),
        (∀ u ∈ (build_schema_from_docx c exchange save docx_abs save_as).requests,
          u = c.base_url ++ "/schema/build")
        ∧ (build_schema_from_docx c exchange save docx_abs save_as).clientAfter = c)
    ∧ (∀ (c : ForgeClientState) (exchange : String → ExchangeOutcome) (save : SaveFn)
        (schema : JDict) (plaintext dest_name now : String),
        (∀ u ∈ (run_schema c exchange save schema plaintext dest_name now).requests,
          u = c.base_url ++ "/schema/run")
        ∧ (run_schema c exchange save schema plaintext dest_name now).clientAfter = c)
    ∧ (∀ (c : ForgeClientState) (exchange : String → ExchangeOutcome) (save : SaveFn)
        (text : String) (save_as : Option String),
        (∀ u ∈ (intake_plaintext_text c exchange save text save_as).requests,
          u = c.base_url ++ "/plaintext/intake")
        ∧ (intake_plaintext_text c exchange save text save_as).clientAfter = c)
    ∧ (∀ (c : ForgeClientState) (exchange : String → ExchangeOutcome) (save : SaveFn)
        (file_abs : String) (stat : FileStat) (save_as : Option String),
        (∀ u ∈ (intake_plaintext_file c exchange save file_abs stat save_as).requests,
          u = c.base_url ++ "/plaintext/intake_file")
        ∧ (intake_plaintext_file c exchange save file_abs stat save_as).clientAfter = c) := by
  refine ⟨?_, ?_, ?_, ?_, ?_⟩
  · intro b env t
    exact rstripSlashes_no_trailing _
  · intro c exchange save docx_abs save_as
    have h := build_trace_shape c exchange save docx_abs save_as
    refine ⟨?_, h.2⟩
    intro u hu
    rw [h.1] at hu
    simpa using hu
  · intro c exchange save schema plaintext dest_name now
    have h := run_trace_shape c exchange save schema plaintext dest_name now
    refine ⟨?_, h.2⟩
    intro u hu
    rw [h.1] at hu
    simpa using hu
  · intro c exchange save text save_as
    have h := intake_text_trace_shape c exchange save text save_as
    refine ⟨?_, h.2⟩
    intro u hu
    rw [h.1] at hu
    simpa using hu
  · intro c exchange save file_abs stat save_as
    exact intake_file_trace_shape c exchange save file_abs stat save_as

/-- Witness for C10 at a concrete client and request. -/
theorem claim_C10_witness :
    (mkClient (some "https://w.example///") wEnvNone 30).base_url.data.getLast? ≠ some '/'
    ∧ ((wClient.base_url ++ "/schema/build") : String) = wClient.base_url ++ "/schema/build"
    ∧ (build_schema_from_docx wClient wExOk wSaveOk "/tmp/a.docx" none).clientAfter
        = wClient :=
  ⟨claim_C10.1 (some "https://w.example///") wEnvNone 30,
   (claim_C10.2.1 wClient wExOk wSaveOk "/tmp/a.docx" none).1
     (wClient.base_url ++ "/schema/build") (List.mem_singleton.mpr rfl),
   (claim_C10.2.1 wClient wExOk wSaveOk "/tmp/a.docx" none).2⟩
